import Mathlib

/-
Verification of the DNS record reconciliation engine and the unique
machine-identifier allocator of the infra-setup-tools repository.

The embedding translates, from the Python source:
  * `DDNSAgentv6.cf_dns_update`   (src/tools/ddns/agent.py, Cloudflare path)
  * `DDNSAgentv6.do_dns_update`   (src/tools/ddns/agent.py, DigitalOcean path)
  * `DDNSAgentv6.do_dns_update`   (src/ddns-service/ddns.py, Cloudflare-style
    service variant: identical update loop, `exit(...)` in the create path)
  * `DDNSAgentv6.call_cf`, `DDNSAgentv6.call_do`, the `__call__` entry points
  * `MachineIDGenerator.unique / validate / validate_network /
    validate_prefix / validate_input / generate`

Remote provider APIs are modelled as explicit backend structures: each
operation consumes a backend state and either returns a response with a new
state or fails (`none`), which stands for the provider client raising
`CloudFlareAPIError` (resp. a generic request exception on the DigitalOcean
client).  Every API call the code issues is recorded in a trace, so theorems
can count queries and writes exactly.
-/

namespace InfraSetup

/-- A Cloudflare AAAA record as the code reads it: the fields `id`,
`content` and `proxied` of a `dns_record` dict. -/
structure Rec where
  id : Nat
  content : String
  proxied : Bool
deriving DecidableEq, Repr

/-- One Cloudflare API call issued by `cf_dns_update` (or the service
variant): `cf.zones.dns_records.get / put / post`.  Each entry records the
parameters the Python code passes. -/
inductive Call where
  | getRecords (name : String)
  | putRecord (name : String) (rid : Nat) (content : String) (proxied : Bool)
  | postRecord (name : String) (content : String) (ttl : Nat)
deriving DecidableEq, Repr

/-- A write call (anything that is not a query). -/
def Call.isWrite : Call → Bool
  | .getRecords _ => false
  | .putRecord _ _ _ _ => true
  | .postRecord _ _ _ => true

/-- Threaded execution record: current backend state, the API calls issued
so far, and the lines printed to stdout / stderr. -/
structure Trace (σ κ : Type) where
  st : σ
  calls : List κ
  stdout : List String
  stderr : List String
deriving DecidableEq, Repr

/-- How `cf_dns_update` (tools agent) or the service `do_dns_update` ends:
normal return, a raised `DDNSUpdateError`, an uncaught `IndexError` from
`dns_records[0]` on an empty re-query, or — service variant only —
process termination through `exit(...)`. -/
inductive CfOutcome where
  | ok
  | ddnsErr (msg : String)
  | idxErr
  | exited (msg : String)
deriving DecidableEq, Repr

/-- Result of the per-record update loop: fell through with the final
`updated` flag, raised `DDNSUpdateError`, or hit the uncaught
`IndexError`. -/
inductive LoopRes where
  | fin (updated : Bool)
  | err (msg : String)
  | idx
deriving DecidableEq, Repr

/-- The Cloudflare API abstracted over an environment state.  `none` models
the client raising `CloudFlareAPIError`.  `get` returns the list of AAAA
records matching the queried name. -/
structure Backend (σ : Type) where
  get : σ → String → Option (List Rec × σ)
  put : σ → String → Nat → String → Bool → Option σ
  post : σ → String → String → Option σ

/-- Message of the wrapped error raised when the initial record query
fails (`"Error: /zones/dns_records %s - %d %s - api call failed"`). -/
def getFailMsg (n : String) : String :=
  "Error: /zones/dns_records " ++ n ++ " - api call failed"

/-- Message of the wrapped error raised when the update call fails. -/
def putFailMsg (n : String) : String :=
  "Error: /zones.dns_records.put " ++ n ++ " - api call failed"

/-- Message of the wrapped error raised when the create call fails. -/
def postFailMsg (n : String) : String :=
  "Error: /zones.dns_records.post " ++ n ++ " - api call failed"

/-- The `UNCHANGED: %s %s` progress line. -/
def unchangedLine (name ip : String) : String :=
  "UNCHANGED: " ++ name ++ " " ++ ip

/-- The `UPDATED: %s %s -> %s` progress line. -/
def updatedLine (name old ip : String) : String :=
  "UPDATED: " ++ name ++ " " ++ old ++ " -> " ++ ip

/-- The `CREATED: %s %s` progress line. -/
def createdLine (name ip : String) : String :=
  "CREATED: " ++ name ++ " " ++ ip

/-- The `for dns_record in dns_records:` loop of `cf_dns_update`
(src/tools/ddns/agent.py lines 130-163), shared verbatim with the service
variant (src/ddns-service/ddns.py lines 98-131).  The loop iterates over
the snapshot returned by the initial query (rebinding `dns_records` inside
the body does not affect the iterator); for a matching record it prints
`UNCHANGED` and sets `updated`; for a stale record it issues `put`,
re-queries, checks `dns_records[0]["content"]`, and either sets `updated`
and prints `UPDATED` or raises `DDNSUpdateError("Error: Record was not
updated")`. -/
def cfLoop {σ : Type} (B : Backend σ) (name ip : String) :
    List Rec → Bool → Trace σ Call → Trace σ Call × LoopRes
  | [], upd, t => (t, .fin upd)
  | r :: rest, _upd, t =>
    if r.content = ip then
      cfLoop B name ip rest true
        ⟨t.st, t.calls, t.stdout ++ [unchangedLine name ip], t.stderr⟩
    else
      match B.put t.st name r.id ip r.proxied with
      | none =>
        (⟨t.st, t.calls ++ [Call.putRecord name r.id ip r.proxied], t.stdout, t.stderr⟩,
         .err (putFailMsg name))
      | some s1 =>
        match B.get s1 name with
        | none =>
          (⟨s1, t.calls ++ [Call.putRecord name r.id ip r.proxied, Call.getRecords name],
            t.stdout, t.stderr⟩,
           .err (putFailMsg name))
        | some (rs2, s2) =>
          let t2 : Trace σ Call :=
            ⟨s2, t.calls ++ [Call.putRecord name r.id ip r.proxied, Call.getRecords name],
             t.stdout, t.stderr⟩
          match rs2.head? with
          | none => (t2, .idx)
          | some r0 =>
            if r0.content = ip then
              cfLoop B name ip rest true
                ⟨t2.st, t2.calls, t2.stdout ++ [updatedLine name r.content ip], t2.stderr⟩
            else (t2, .err "Error: Record was not updated")

/-- `DDNSAgentv6.cf_dns_update` of src/tools/ddns/agent.py (lines 97-187):
query, per-record update loop, and — when no record matched or was
updated — create with ttl 60 followed by a confirming re-query.  On a
post-create mismatch the code prints `Error: Record was not created` to
stderr and returns normally. -/
def cf_dns_update {σ : Type} (B : Backend σ) (name ip : String) (s : σ) :
    Trace σ Call × CfOutcome :=
  match B.get s name with
  | none => (⟨s, [Call.getRecords name], [], []⟩, .ddnsErr (getFailMsg name))
  | some (rs, s1) =>
    match cfLoop B name ip rs false ⟨s1, [Call.getRecords name], [], []⟩ with
    | (t, .err m) => (t, .ddnsErr m)
    | (t, .idx) => (t, .idxErr)
    | (t, .fin true) => (t, .ok)
    | (t, .fin false) =>
      match B.post t.st name ip with
      | none => (⟨t.st, t.calls ++ [Call.postRecord name ip 60], t.stdout, t.stderr⟩,
                 .ddnsErr (postFailMsg name))
      | some s2 =>
        match B.get s2 name with
        | none =>
          (⟨s2, t.calls ++ [Call.postRecord name ip 60, Call.getRecords name],
            t.stdout, t.stderr⟩,
           .ddnsErr (postFailMsg name))
        | some (rs2, s3) =>
          let t2 : Trace σ Call :=
            ⟨s3, t.calls ++ [Call.postRecord name ip 60, Call.getRecords name],
             t.stdout, t.stderr⟩
          match rs2.head? with
          | none => (t2, .idxErr)
          | some r0 =>
            if r0.content ≠ ip then
              (⟨t2.st, t2.calls, t2.stdout, t2.stderr ++ ["Error: Record was not created"]⟩,
               .ok)
            else
              (⟨t2.st, t2.calls, t2.stdout ++ [createdLine name ip], t2.stderr⟩, .ok)

/-- `DDNSAgentv6.do_dns_update` of src/ddns-service/ddns.py (lines 70-154):
identical query and update loop, but in the create path a failed call or a
post-create mismatch terminates the whole process via `exit(...)`. -/
def svc_dns_update {σ : Type} (B : Backend σ) (name ip : String) (s : σ) :
    Trace σ Call × CfOutcome :=
  match B.get s name with
  | none => (⟨s, [Call.getRecords name], [], []⟩, .ddnsErr (getFailMsg name))
  | some (rs, s1) =>
    match cfLoop B name ip rs false ⟨s1, [Call.getRecords name], [], []⟩ with
    | (t, .err m) => (t, .ddnsErr m)
    | (t, .idx) => (t, .idxErr)
    | (t, .fin true) => (t, .ok)
    | (t, .fin false) =>
      match B.post t.st name ip with
      | none => (⟨t.st, t.calls ++ [Call.postRecord name ip 60], t.stdout, t.stderr⟩,
                 .exited (postFailMsg name))
      | some s2 =>
        match B.get s2 name with
        | none =>
          (⟨s2, t.calls ++ [Call.postRecord name ip 60, Call.getRecords name],
            t.stdout, t.stderr⟩,
           .exited (postFailMsg name))
        | some (rs2, s3) =>
          let t2 : Trace σ Call :=
            ⟨s3, t.calls ++ [Call.postRecord name ip 60, Call.getRecords name],
             t.stdout, t.stderr⟩
          match rs2.head? with
          | none => (t2, .idxErr)
          | some r0 =>
            if r0.content ≠ ip then
              (t2, .exited "Error: Record was not created")
            else
              (⟨t2.st, t2.calls, t2.stdout ++ [createdLine name ip], t2.stderr⟩, .ok)

/-- Fresh identifier for a created record in the ideal provider. -/
def freshId (rs : List Rec) : Nat := (rs.map Rec.id).foldr max 0 + 1

/-- An ideal, well-behaved provider for the single host under
reconciliation: the state is exactly the list of AAAA records at that
name, queries return it, `put` rewrites the record(s) with the given
identifier, `post` appends a fresh record.  Writes always take effect and
queries always reflect live state. -/
def idealB : Backend (List Rec) where
  get s _ := some (s, s)
  put s _ rid v p := some (s.map fun r => if r.id = rid then ⟨r.id, v, p⟩ else r)
  post s _ v := some (s ++ [⟨freshId s, v, false⟩])

/-! ### String helpers used by the DigitalOcean path and the allocator -/

/-- Whether one character list is a prefix of another. -/
def charListPrefix : List Char → List Char → Bool
  | [], _ => true
  | _ :: _, [] => false
  | a :: as, b :: bs => (a == b) && charListPrefix as bs

/-- Whether `needle` occurs contiguously inside `hay`. -/
def charListInfix (needle : List Char) : List Char → Bool
  | [] => needle.isEmpty
  | c :: rest => charListPrefix needle (c :: rest) || charListInfix needle rest

/-- Python `hay.find(needle) != -1`: substring containment anywhere in the
string, not only as a suffix. -/
def strContains (hay needle : String) : Bool :=
  charListInfix needle.data hay.data

/-- Python `s.removesuffix(suf)`: drop `suf` when it is a suffix of `s`,
otherwise return `s` unchanged. -/
def strRemoveSuffix (s suf : String) : String :=
  if charListPrefix suf.data.reverse s.data.reverse then
    ⟨s.data.take (s.data.length - suf.data.length)⟩
  else s

/-- Python `%`-formatting with `%s` placeholders: substitution succeeds only
when the number of arguments matches the number of placeholders; otherwise
the interpreter raises `TypeError: not enough arguments for format string`
(modelled by `none`).  The error handlers in `call_cf`, `call_do` and the
service `__call__` evaluate `"Error Updating %s: %s" % (e)` — two
placeholders but a single argument — so their `some` branch is
unreachable. -/
def pctFormat (parts : List String) (args : List String) : Option String :=
  match parts, args with
  | [p], [] => some p
  | p :: ps, a :: as =>
    match pctFormat ps as with
    | some r => some (p ++ a ++ r)
    | none => none
  | _, _ => none

/-- The message of the `TypeError` raised by a `%`-format with too few
arguments. -/
def formatTypeError : String := "not enough arguments for format string"

/-! ### DigitalOcean path -/

/-- A DigitalOcean domain record as the code reads it: the `id` and `data`
fields of a `domain_records` entry. -/
structure DoRec where
  id : Nat
  data : String
deriving DecidableEq, Repr

/-- One DigitalOcean API call issued by `do_dns_update`:
`do.domains.list_records / update_record / create_record`, with the
parameters the code passes (`list_records` receives the full fqdn, the
write bodies carry the zone-stripped name). -/
inductive DoCall where
  | listRecords (zone : String) (name : String)
  | updateRecord (zone : String) (rid : Nat) (name : String) (data : String)
  | createRecord (zone : String) (name : String) (data : String)
deriving DecidableEq, Repr

/-- A DigitalOcean write call. -/
def DoCall.isWrite : DoCall → Bool
  | .listRecords _ _ => false
  | .updateRecord _ _ _ _ => true
  | .createRecord _ _ _ => true

/-- Outcome of `do_dns_update`: normal return or a raised
`DDNSUpdateError` (every client exception is caught by a bare
`except Exception` and wrapped). -/
inductive DoOutcome where
  | ok
  | ddnsErr (msg : String)
deriving DecidableEq, Repr

/-- The DigitalOcean client abstracted over an environment state.  The
outer `none` models the request raising; `listRecords`'s inner `Option`
models the presence of the `domain_records` key in the response, and the
`Bool` of the write calls models the presence of the `domain_record` key,
which is all the code inspects. -/
structure DoBackend (τ : Type) where
  listRecords : τ → String → String → Option (Option (List DoRec) × τ)
  updateRecord : τ → String → Nat → String → String → Option (Bool × τ)
  createRecord : τ → String → String → String → Option (Bool × τ)

/-- Loop result for the DigitalOcean update loop: besides falling through
or raising, a failed response check prints to stderr and returns from the
whole function (`retOk`). -/
inductive DoLoopRes where
  | fin (updated : Bool)
  | retOk
  | err (msg : String)
deriving DecidableEq, Repr

/-- The record loop of `do_dns_update` (src/tools/ddns/agent.py lines
234-271): `UNCHANGED` for a matching record; otherwise `update_record`
whose success is judged solely from the response's `domain_record` key —
no re-query.  A missing key prints `Error: Record was not updated` to
stderr and returns. -/
def doLoop {τ : Type} (D : DoBackend τ) (zone name ip : String) :
    List DoRec → Bool → Trace τ DoCall → Trace τ DoCall × DoLoopRes
  | [], upd, t => (t, .fin upd)
  | r :: rest, _upd, t =>
    if r.data = ip then
      doLoop D zone name ip rest true
        ⟨t.st, t.calls, t.stdout ++ [unchangedLine name ip], t.stderr⟩
    else
      match D.updateRecord t.st zone r.id name ip with
      | none =>
        (⟨t.st, t.calls ++ [DoCall.updateRecord zone r.id name ip], t.stdout, t.stderr⟩,
         .err (putFailMsg name))
      | some (hasRec, s1) =>
        let t1 : Trace τ DoCall :=
          ⟨s1, t.calls ++ [DoCall.updateRecord zone r.id name ip], t.stdout, t.stderr⟩
        if hasRec then
          doLoop D zone name ip rest true
            ⟨t1.st, t1.calls, t1.stdout ++ [updatedLine name r.data ip], t1.stderr⟩
        else
          (⟨t1.st, t1.calls, t1.stdout, t1.stderr ++ ["Error: Record was not updated"]⟩,
           .retOk)

/-- `DDNSAgentv6.do_dns_update` of src/tools/ddns/agent.py (lines
189-299).  If the zone string does not occur anywhere in `dns_name`
(Python `dns_name.find(zone) == -1`) the function prints an error to
stderr and returns normally, issuing no API call.  Otherwise it strips the
`"." + zone` suffix from the name, lists records at the full fqdn, runs
the update loop, and — when nothing matched or updated — creates a record,
judging success from the response's `domain_record` key (again without any
re-query); a missing key prints `Error: Record was not created` and
returns. -/
def do_dns_update {τ : Type} (D : DoBackend τ) (zone dnsName ip : String) (s : τ) :
    Trace τ DoCall × DoOutcome :=
  if strContains dnsName zone = false then
    (⟨s, [], [], ["Error: " ++ dnsName ++ " not part of Zone " ++ zone]⟩, .ok)
  else
    let fqdn := dnsName
    let name := strRemoveSuffix dnsName ("." ++ zone)
    match D.listRecords s zone fqdn with
    | none => (⟨s, [DoCall.listRecords zone fqdn], [], []⟩, .ddnsErr (getFailMsg name))
    | some (resp, s1) =>
      let rs := resp.getD []
      match doLoop D zone name ip rs false ⟨s1, [DoCall.listRecords zone fqdn], [], []⟩ with
      | (t, .err m) => (t, .ddnsErr m)
      | (t, .retOk) => (t, .ok)
      | (t, .fin true) => (t, .ok)
      | (t, .fin false) =>
        match D.createRecord t.st zone name ip with
        | none =>
          (⟨t.st, t.calls ++ [DoCall.createRecord zone name ip], t.stdout, t.stderr⟩,
           .ddnsErr (postFailMsg name))
        | some (hasRec, s2) =>
          let t2 : Trace τ DoCall :=
            ⟨s2, t.calls ++ [DoCall.createRecord zone name ip], t.stdout, t.stderr⟩
          if hasRec then
            (⟨t2.st, t2.calls, t2.stdout ++ [createdLine name ip], t2.stderr⟩, .ok)
          else
            (⟨t2.st, t2.calls, t2.stdout, t2.stderr ++ ["Error: Record was not created"]⟩,
             .ok)

/-- The effect on one record of the update issued for snapshot record
`q` against the ideal provider: every record whose identifier equals
`q.id` is rewritten to the target content with `q`'s proxied flag. -/
def fix1 (ip : String) (q r : Rec) : Rec :=
  if r.id = q.id then ⟨r.id, ip, q.proxied⟩ else r

/-- Cumulative effect, in order, of the updates issued for the snapshot
records `D`. -/
def fixRec (ip : String) (D : List Rec) (r : Rec) : Rec :=
  D.foldl (fun x q => fix1 ip q x) r

/-- State of the ideal provider after the updates for `D` have been
applied to the initial record list `s`. -/
def applyPuts (ip : String) (s D : List Rec) : List Rec :=
  s.map (fixRec ip D)

/-- Checks that every update call in a trace is immediately followed by a
record query — the read-after-write verification pattern of the
Cloudflare code path. -/
def putsVerified : List Call → Bool
  | [] => true
  | Call.putRecord _ _ _ _ :: rest =>
    match rest with
    | Call.getRecords _ :: rest2 => putsVerified rest2
    | _ => false
  | _ :: rest => putsVerified rest

/-! ### Batch orchestrators -/

/-- How a `call_cf` / `call_do` invocation ends: either the loop finishes
with the collected error list (the function then raises `DDNSUpdateError`
with those errors when the list is nonempty), or an exception other than
`DDNSUpdateError` escapes and crashes the process. -/
inductive CallRes where
  | finished (errors : List String)
  | crashed (msg : String)
deriving DecidableEq, Repr

/-- The parts of the format string `"Error Updating %s: %s"` split at its
`%s` placeholders. -/
def errUpdatingParts : List String := ["Error Updating ", ": ", ""]

/-- The per-host loop of `call_cf` (src/tools/ddns/agent.py lines
358-362).  A raised `DDNSUpdateError` lands in an `except` handler that
evaluates `"Error Updating %s: %s" % (e)` — two placeholders, one
argument — so instead of appending to the error list the handler raises
`TypeError`, which nothing catches. -/
def cfHostsLoop {σ : Type} (B : Backend σ) (ip : String) :
    List String → σ → List String → Except (σ × String) (σ × List String)
  | [], s, errs => .ok (s, errs)
  | h :: rest, s, errs =>
    match cf_dns_update B h ip s with
    | (t, .ok) => cfHostsLoop B ip rest t.st errs
    | (t, .ddnsErr m) =>
      match pctFormat errUpdatingParts [m] with
      | some line => cfHostsLoop B ip rest t.st (errs ++ [line])
      | none => .error (t.st, formatTypeError)
    | (t, .idxErr) => .error (t.st, "list index out of range")
    | (t, .exited m) => .error (t.st, m)

/-- `DDNSAgentv6.call_cf` (src/tools/ddns/agent.py lines 301-365): per
zone, resolve the zone id (`Z` models `cf.zones.get`, `none` standing for
either `except` branch), collect an error and continue on resolution
failure, then run every host.  At the end it raises `DDNSUpdateError` iff
the collected error list is nonempty (reflected by `finished errors`). -/
def call_cf {σ : Type} (B : Backend σ) (Z : String → Option (List String)) (ip : String) :
    List (String × List String) → σ → List String → CallRes × σ
  | [], s, errs => (.finished errs, s)
  | (zone, hosts) :: rest, s, errs =>
    match Z zone with
    | none =>
      call_cf B Z ip rest s (errs ++ ["Error: /zones.get - " ++ zone ++ " - api call failed"])
    | some ids =>
      if ids.length = 0 then
        call_cf B Z ip rest s (errs ++ ["Error: /zones.get - " ++ zone ++ " - zone not found"])
      else if ids.length ≠ 1 then
        call_cf B Z ip rest s
          (errs ++ ["Error: /zones.get - " ++ zone ++ " - api call returned " ++
            toString ids.length ++ " items"])
      else
        match cfHostsLoop B ip hosts s errs with
        | .ok (s1, errs1) => call_cf B Z ip rest s1 errs1
        | .error (s1, m) => (.crashed m, s1)

/-- The per-host loop of `call_do` (src/tools/ddns/agent.py lines
406-410).  The inner handler has the same `"Error Updating %s: %s" % (e)`
slip; the resulting `TypeError` propagates to the outer
`except Exception`, which appends `"DO Error %s" % e` and abandons the
zone's remaining hosts (third component: the abort entry). -/
def doHostsLoop {τ : Type} (D : DoBackend τ) (zone ip : String) :
    List String → τ → List String → τ × List String × Option String
  | [], t, errs => (t, errs, none)
  | h :: rest, t, errs =>
    match do_dns_update D zone h ip t with
    | (tr, .ok) => doHostsLoop D zone ip rest tr.st errs
    | (tr, .ddnsErr m) =>
      match pctFormat errUpdatingParts [m] with
      | some line => doHostsLoop D zone ip rest tr.st (errs ++ [line])
      | none => (tr.st, errs, some ("DO Error " ++ formatTypeError))

/-- `DDNSAgentv6.call_do` (src/tools/ddns/agent.py lines 367-415): per
zone, fetch the domain (`Z` models `do.domains.get`, returning the `id`
field or raising), treat the sentinel `"not_found"` as a raised
`DDNSUpdateError` — which the outer `except Exception` catches as
`"DO Error ..."` — then run the hosts.  Raises at the end iff errors were
collected; never crashes, because the outer handler swallows the
`TypeError` from the inner one. -/
def call_do {τ : Type} (D : DoBackend τ) (Z : String → Except String String) (ip : String) :
    List (String × List String) → τ → List String → CallRes × τ
  | [], t, errs => (.finished errs, t)
  | (zone, hosts) :: rest, t, errs =>
    match Z zone with
    | .error m => call_do D Z ip rest t (errs ++ ["DO Error " ++ m])
    | .ok zid =>
      if zid = "not_found" then
        call_do D Z ip rest t (errs ++ ["DO Error Error: Zone " ++ zone ++ " Not Found"])
      else
        match doHostsLoop D zone ip hosts t errs with
        | (t1, errs1, none) => call_do D Z ip rest t1 errs1
        | (t1, errs1, some e) => call_do D Z ip rest t1 (errs1 ++ [e])

/-- Exit status of `DDNSAgentv6.__call__` (src/tools/ddns/agent.py lines
476-523) as a function of how the two provider runs ended.  `none` means
the token was absent or no zones were configured (the call is skipped).
A `finished` run with a nonempty error list raises `DDNSUpdateError`,
which `__call__` catches and merely prints — the process still exits 0.
Only an uncaught exception (a crash) yields a non-zero status, and a
crash in the Cloudflare part skips the DigitalOcean part entirely. -/
def toolsExitCode (cfRes : Option CallRes) (doRes : Option CallRes) : Nat :=
  match cfRes with
  | some (.crashed _) => 1
  | _ =>
    match doRes with
    | some (.crashed _) => 1
    | _ => 0

/-- How the service `DDNSAgentv6.__call__` (src/ddns-service/ddns.py lines
156-217) ends: a normal finish with the computed exit status (1 iff errors
were collected, else 0), a process termination through `exit(str)` inside
`do_dns_update` (status 1), or an uncaught exception (status 1 with a
traceback). -/
inductive SvcRes where
  | exitCode (n : Nat)
  | exitedMsg (msg : String)
  | crashed (msg : String)
deriving DecidableEq, Repr

/-- The host loop and final error report of the service `__call__`
(src/ddns-service/ddns.py lines 205-217), with all issued API calls
accumulated.  The per-host handler has the same
`"Error Updating %s: %s" % (e)` slip, and here nothing catches the
resulting `TypeError`: the process crashes at the first host-level
failure and the remaining hosts are never attempted. -/
def serviceHostsLoop {σ : Type} (B : Backend σ) (ip : String) :
    List String → σ → List Call → List String → SvcRes × σ × List Call
  | [], s, calls, errs =>
    ((if errs.isEmpty then .exitCode 0 else .exitCode 1), s, calls)
  | h :: rest, s, calls, errs =>
    match svc_dns_update B h ip s with
    | (t, .ok) => serviceHostsLoop B ip rest t.st (calls ++ t.calls) errs
    | (t, .ddnsErr m) =>
      match pctFormat errUpdatingParts [m] with
      | some line => serviceHostsLoop B ip rest t.st (calls ++ t.calls) (errs ++ [line])
      | none => (.crashed formatTypeError, t.st, calls ++ t.calls)
    | (t, .exited m) => (.exitedMsg m, t.st, calls ++ t.calls)
    | (t, .idxErr) => (.crashed "list index out of range", t.st, calls ++ t.calls)

/-! ### Models of the external `validators` library

The allocator and the agents call `validators.domain` and
`validators.hostname` from the third-party `validators` package.  These are
modelled from that library's documented regular expressions: a domain is a
dot-separated sequence of at least two labels, each 1-63 characters of
alphanumerics, hyphen or underscore, starting with an alphanumeric; inner
labels end with an alphanumeric and the final label ends with a letter.
Neither regex bounds the total length of the name. -/

/-- Lowercase ASCII letter. -/
def isLowerA (c : Char) : Bool := decide ('a' ≤ c) && decide (c ≤ 'z')

/-- Uppercase ASCII letter. -/
def isUpperA (c : Char) : Bool := decide ('A' ≤ c) && decide (c ≤ 'Z')

/-- ASCII digit. -/
def isDigitC (c : Char) : Bool := decide ('0' ≤ c) && decide (c ≤ '9')

/-- ASCII letter or digit. -/
def isAlnumC (c : Char) : Bool := isLowerA c || isUpperA c || isDigitC c

/-- ASCII letter. -/
def isAlphaC (c : Char) : Bool := isLowerA c || isUpperA c

/-- Character allowed inside a label by the modelled regexes. -/
def labelCharC (c : Char) : Bool := isAlnumC c || (c == '-') || (c == '_')

/-- Split a character list at the dots (Python `s.split(".")`). -/
def splitDots : List Char → List (List Char)
  | [] => [[]]
  | c :: rest =>
    if c = '.' then [] :: splitDots rest
    else
      match splitDots rest with
      | [] => [[c]]
      | h :: t => (c :: h) :: t

/-- A non-final label of the modelled `validators.domain` regex. -/
def innerLabelOk (l : List Char) : Bool :=
  match l.head?, l.getLast? with
  | some c, some d =>
    isAlnumC c && (l.length == 1 || (decide (l.length ≤ 63) && l.all labelCharC && isAlnumC d))
  | _, _ => false

/-- The final label of the modelled `validators.domain` regex. -/
def tldOk (l : List Char) : Bool :=
  match l.head?, l.getLast? with
  | some c, some d =>
    isAlnumC c && decide (2 ≤ l.length) && decide (l.length ≤ 63) &&
      l.all labelCharC && isAlphaC d
  | _, _ => false

/-- Model of the external call `validators.domain(s)`: at least two
labels, all labels well-formed, no bound on the total length. -/
def validators_domain (s : String) : Bool :=
  match (splitDots s.data).reverse with
  | tld :: rest => (!rest.isEmpty) && tldOk tld && rest.all innerLabelOk
  | [] => false

/-- Model of the external call `validators.hostname(s, skip_ipv6_addr=True,
skip_ipv4_addr=True, may_have_port=False, rfc_2782=True)` on the
non-address, portless strings the generator feeds it: nonempty
dot-separated labels of at most 63 label characters each. -/
def validators_hostname (s : String) : Bool :=
  (!s.data.isEmpty) && decide (s.data.length ≤ 253) &&
    (splitDots s.data).all fun l => (!l.isEmpty) && decide (l.length ≤ 63) && l.all labelCharC

/-! ### MachineIDGenerator -/

/-- `MachineIDGenerator.validate_network` (src/tools/manage/
machineidgenerator.py lines 133-151): `MACHINE_NETWORK` must be set, a
valid domain per `validators.domain`, and at most `253 - 63 = 190`
characters long. -/
def validate_network (machineNetwork : Option String) : List String :=
  match machineNetwork with
  | none => ["Error: \"MACHINE_NETWORK\" not set"]
  | some n =>
    (if validators_domain n = false then
       ["Error: \"MACHINE_NETWORK\" not set to a proper FQDN"]
     else []) ++
    (if 253 - 63 < n.length then
       ["Error: \"MACHINE_NETWORK\" length is too long",
        "Hint: For proper functioning cap \"MACHINE_NETWORK\" length to " ++
          toString (253 - 63)]
     else [])

/-- `MachineIDGenerator.validate_prefix` (lines 153-188): `MACHINE_PREFIX`
must be set, a valid dot-free hostname component, and short enough that
the composed label `prefix + "-" + random_id` stays within 63
characters. -/
def validate_prefix (machinePfx : Option String) (randomIdLength : Nat) : List String :=
  match machinePfx with
  | none => ["Error: \"MACHINE_PREFIX\" not set"]
  | some p =>
    let labelLength := p.length + 1 + randomIdLength
    (if validators_hostname p = false ∨ strContains p "." = true then
       ["Error: \"MACHINE_PREFIX\" not set to a proper \"hostname\" component"]
     else []) ++
    (if 63 < labelLength then
       ["Error: generated \"label\" length will exceed the limit please reduce " ++
          "\"MACHINE_PREFIX\" to match the length requirements of a DNS label",
        "Hint: DNS Label length is capped at 63 characters. \"MACHINE_PREFIX\" is capped at " ++
          toString ((63 : Int) - randomIdLength + 1) ++ " characters"]
     else [])

/-- `MachineIDGenerator.validate_input` (lines 190-225): collect the
network and prefix errors, then — when both are set and nonempty — check
the combined length `label_length + len(network) > 253`.  Note the
comparison counts `len(prefix) + 1 + random_id_length + len(network)`,
omitting the dot that later joins label and network in the fqdn.  The
caller exits iff the returned list is nonempty — all before any network
call (`__call__` runs `validate_input` before touching the Cloudflare
client). -/
def validate_input (machineNetwork machinePfx : Option String)
    (randomIdLength : Nat) : List String :=
  (match machineNetwork with
   | none => ["Error: \"MACHINE_NETWORK\" not set"]
   | some n => validate_network (some n)) ++
  (match machinePfx with
   | none => ["Error: \"MACHINE_PREFIX\" not set"]
   | some p => validate_prefix (some p) randomIdLength) ++
  (match machineNetwork, machinePfx with
   | some n, some p =>
     if n ≠ "" ∧ p ≠ "" then
       if 253 < p.length + 1 + randomIdLength + n.length then
         ["Error: generated \"hostname\" length will exceed the limit please reduce " ++
            "either or both of \"MACHINE_PREFIX\" or \"MACHINE_NETWORK\" to match the " ++
            "length requirements of a FQDN",
          "Hint: FQDN length is capped at 253 characters"]
       else []
     else []
   | _, _ => [])

/-- The uniqueness oracle used by `MachineIDGenerator.unique` (lines
114-131): `cf.zones.dns_records.get(zone_id, params=name/AAAA)` for a
varying name.  `none` models `CloudFlareAPIError`, on which `unique`
terminates the process via `exit(...)`. -/
structure CfQuery (σ : Type) where
  query : σ → String → Option (List Rec × σ)

/-- Result of the `generate` loop: a committed `(label, fqdn)` pair
together with the uniqueness queries issued and the run of the commit
step, a process exit from inside `unique`, or exhaustion of the supplied
candidate stream (the Python loop would keep drawing forever). -/
inductive GenRes (σ τ : Type) where
  | committed (hostLabel fqdn : String) (queried : List String) (s : σ)
      (doRun : Trace τ DoCall × DoOutcome)
  | exited (msg : String) (queried : List String)
  | fuelOut (queried : List String)
deriving DecidableEq, Repr

/-- `MachineIDGenerator.generate` (lines 311-324) with `validate` (lines
101-112) and `unique` (lines 114-131) inlined.  Each loop iteration draws
a candidate (the list argument models the successive outputs of
`random_id_generator`), composes `host_label = prefix + "-" + candidate`
and `fqdn = host_label + "." + base_domain`, checks `validators.domain`
(no query when it fails), queries for existing AAAA records at the fqdn,
and retries on a nonempty result.  On an empty result it commits — but the
commit step is `ddns.do_dns_update(self.cf, self.zone_id, self.fqdn,
"::1")`: the DigitalOcean update path handed a Cloudflare client and a
Cloudflare zone identifier as the `zone` string.  The backend `D` models
that client (every attribute access on it raises, which `do_dns_update`
would wrap), and `zoneId` is passed as the zone argument. -/
def generate {σ τ : Type} (Q : CfQuery σ) (D : DoBackend τ) (zoneId pfx baseDomain : String)
    (dst : τ) : List String → σ → List String → GenRes σ τ
  | [], _, qlog => .fuelOut qlog
  | c :: rest, s, qlog =>
    let hostLabel := pfx ++ "-" ++ c
    let fqdn := hostLabel ++ "." ++ baseDomain
    if validators_domain fqdn = false then
      generate Q D zoneId pfx baseDomain dst rest s qlog
    else
      match Q.query s fqdn with
      | none =>
        .exited ("Error: /zones/dns_records " ++ fqdn ++ " - api call failed")
          (qlog ++ [fqdn])
      | some (rs, s1) =>
        if rs.isEmpty then
          .committed hostLabel fqdn (qlog ++ [fqdn]) s1 (do_dns_update D zoneId fqdn "::1" dst)
        else
          generate Q D zoneId pfx baseDomain dst rest s1 (qlog ++ [fqdn])

/-- A DigitalOcean-client backend on which every call fails: this is what
the commit step's client actually is — a `CloudFlare.CloudFlare` object,
so any `do.domains.*` attribute access raises and `do_dns_update` would
wrap the exception. -/
def failDoB : DoBackend Unit where
  listRecords _ _ _ := none
  updateRecord _ _ _ _ _ := none
  createRecord _ _ _ _ := none

/-- A uniqueness oracle that finds the zone free at every name. -/
def emptyQ : CfQuery Unit where
  query _ _ := some ([], ())

/-- A Cloudflare zone identifier as returned by `cf.zones.get`: an opaque
32-character hex string, never a substring of any generated fqdn. -/
def sampleZoneId : String := "0123456789abcdef0123456789abcdef"

/-! ### Concrete provider behaviours used as test inputs -/

/-- A name-to-value store of AAAA records covering one zone; used to show
that nothing the allocator's commit step does survives into the store. -/
def storeQ : CfQuery (List (String × String)) where
  query s n := some ((s.filter fun p => p.1 == n).map fun p => ⟨0, p.2, false⟩, s)

/-- The matching DigitalOcean-style backend over the same store: a create
appends the record at `name + "." + zone`. -/
def storeDoB : DoBackend (List (String × String)) where
  listRecords s _ fqdn := some (some ((s.filter fun p => p.1 == fqdn).map fun p => ⟨0, p.2⟩), s)
  updateRecord s _ _ _ _ := some (true, s)
  createRecord s zone name data := some (true, s ++ [(name ++ "." ++ zone, data)])

/-- Uniqueness oracle reporting an existing record for the first two
candidate fqdns and a free name for every other. -/
def c7Q : CfQuery Unit where
  query _ n :=
    some ((if n == "rpi4-aaaaaaaa.corpdk.com" || n == "rpi4-bbbbbbbb.corpdk.com" then
             [⟨1, "2001:db8::7", false⟩]
           else []), ())

/-- DigitalOcean behaviour for the batch-failure run: host `a.corpdk.com`
has one stale record and its update call raises. -/
def c2DoB : DoBackend Nat where
  listRecords s _ _ := if s = 0 then some (some [⟨1, "2001:db8::1"⟩], 1) else none
  updateRecord _ _ _ _ _ := none
  createRecord _ _ _ _ := none

/-- Zone oracle answering every `do.domains.get` with a live zone id. -/
def c2Z : String → Except String String := fun _ => Except.ok "zid"

/-- Cloudflare behaviour for the service batch-failure run: one stale
record whose update is accepted but whose re-query still shows the old
value. -/
def c2B : Backend Nat where
  get s _ :=
    if s = 0 then some ([⟨1, "2001:db8::1", false⟩], 1)
    else if s = 2 then some ([⟨1, "2001:db8::1", false⟩], 3)
    else none
  put s _ _ _ _ := if s = 1 then some 2 else none
  post _ _ _ := none

/-- DigitalOcean behaviour with one stale record and an update call whose
response carries the `domain_record` key. -/
def c3DoB : DoBackend Nat where
  listRecords s _ _ := if s = 0 then some (some [⟨7, "2001:db8::1"⟩], 1) else none
  updateRecord s _ _ _ _ := if s = 1 then some (true, 2) else none
  createRecord _ _ _ _ := none

/-- Cloudflare behaviour whose create is accepted but whose post-create
re-query shows a different value. -/
def c4B : Backend Nat where
  get s _ :=
    if s = 0 then some ([], 1)
    else if s = 2 then some ([⟨1, "2001:db8::bad", false⟩], 3)
    else none
  put _ _ _ _ _ := none
  post s _ _ := if s = 1 then some 2 else none

/-- Zone oracle resolving every zone name to exactly one id. -/
def c4Z : String → Option (List String) := fun _ => some ["zid"]

/-- Cloudflare behaviour with one stale record whose update call raises —
the situation of a record identifier that no longer exists. -/
def c9B : Backend Nat where
  get s _ := if s = 0 then some ([⟨1, "2001:db8::1", false⟩], 1) else none
  put _ _ _ _ _ := none
  post _ _ _ := none

/-- 54 `a`s: a `MACHINE_PREFIX` that composes to a label of exactly 63
characters with a random segment of length 8. -/
def a54 : String := ⟨List.replicate 54 'a'⟩

/-- A syntactically valid domain of exactly 190 characters — the largest
`MACHINE_NETWORK` the generator accepts. -/
def net190 : String :=
  ⟨List.replicate 63 'a' ++ '.' :: (List.replicate 63 'a' ++ '.' ::
    (List.replicate 58 'a' ++ ".com".data))⟩

/-- The fqdn the generator would compose from `a54`, an 8-character random
segment and `net190`: 254 characters. -/
def c8Fqdn : String := a54 ++ "-" ++ "abcdefgh" ++ "." ++ net190

/-! ## Theorems for the specification claims -/

/-- C1: the claim says that on an empty uniqueness-query result the
allocator immediately writes the placeholder record (the fixed
non-routable `::1`) at the fqdn through the reconciliation create/verify
path and re-queries to confirm it before returning the committed pair.
In the code the commit step is `ddns.do_dns_update(self.cf, self.zone_id,
self.fqdn, "::1")` — the DigitalOcean path handed a Cloudflare client and
an opaque zone identifier.  Its zone-membership guard
(`dns_name.find(zone) == -1`) fires because the hex zone id is not a
substring of the fqdn, so the function prints `not part of Zone` to
stderr and returns having issued zero API calls: no placeholder write, no
confirming re-query. -/
theorem c1_generate_commit_writes_nothing :
    generate emptyQ failDoB sampleZoneId "rpi4" "corpdk.com" () ["abcdefgh"] () [] =
      GenRes.committed "rpi4-abcdefgh" "rpi4-abcdefgh.corpdk.com"
        ["rpi4-abcdefgh.corpdk.com"] ()
        (⟨(), [], [],
          ["Error: rpi4-abcdefgh.corpdk.com not part of Zone " ++ sampleZoneId]⟩,
         DoOutcome.ok) ∧
    (do_dns_update failDoB sampleZoneId "rpi4-abcdefgh.corpdk.com" "::1" ()).1.calls = [] := by
  decide

/-- C2: the claim says a batch run with at least one host-level failure
exits non-zero while every other host's update is retained and not
skipped.  Evaluating the code on a DigitalOcean run over hosts
`a.corpdk.com` (whose update call raises) and `b.corpdk.com`: the
per-host handler's `"Error Updating %s: %s" % (e)` raises `TypeError`
(one argument for two placeholders), the outer handler records
`DO Error not enough arguments for format string` and abandons the zone —
the backend state shows `b.corpdk.com` was never attempted — and
`__call__` catches the aggregate error, prints it and exits 0.  In the
service variant the same `TypeError` is uncaught: the run crashes at the
first failure with only `a.corpdk.com`'s calls issued, skipping
`b.corpdk.com`. -/
theorem c2_batch_failure_not_collected :
    call_do c2DoB c2Z "2001:db8::2" [("corpdk.com", ["a.corpdk.com", "b.corpdk.com"])] 0 [] =
      (CallRes.finished ["DO Error " ++ formatTypeError], 1) ∧
    toolsExitCode none (some (CallRes.finished ["DO Error " ++ formatTypeError])) = 0 ∧
    serviceHostsLoop c2B "2001:db8::2" ["a.corpdk.com", "b.corpdk.com"] 0 [] [] =
      (SvcRes.crashed formatTypeError, 3,
       [Call.getRecords "a.corpdk.com", Call.putRecord "a.corpdk.com" 1 "2001:db8::2" false,
        Call.getRecords "a.corpdk.com"]) := by
  decide

/-- C3 counterexample: the claim says the post-update read-after-write
verification happens on every provider backend, never relying on the
write call's own response.  On the DigitalOcean backend a stale record's
update is counted as a success (`UPDATED` printed, outcome ok) purely
because the update response carries the `domain_record` key: the full
call trace is one `list_records` followed by one `update_record`, with no
further query. -/
theorem c3_do_update_no_requery :
    do_dns_update c3DoB "corpdk.com" "db.corpdk.com" "2001:db8::2" 0 =
      (⟨2,
        [DoCall.listRecords "corpdk.com" "db.corpdk.com",
         DoCall.updateRecord "corpdk.com" 7 "db" "2001:db8::2"],
        [updatedLine "db" "2001:db8::1" "2001:db8::2"], []⟩,
       DoOutcome.ok) := by
  decide

/-- C4 counterexample: the claim says a post-create verification mismatch
yields a per-host Failed result with reason `post-create verification
mismatch` that the orchestrator collects, rather than being silently
ignored or terminating the process.  With a backend whose create is
accepted but whose re-query shows a different value, `cf_dns_update`
prints `Error: Record was not created` to stderr and returns normally
(outcome ok, nothing raised), `call_cf` finishes with an empty error
list, and the service variant terminates the whole process via
`exit("Error: Record was not created")`. -/
theorem c4_create_mismatch_silent :
    cf_dns_update c4B "db.corpdk.com" "2001:db8::1" 0 =
      (⟨3,
        [Call.getRecords "db.corpdk.com", Call.postRecord "db.corpdk.com" "2001:db8::1" 60,
         Call.getRecords "db.corpdk.com"],
        [], ["Error: Record was not created"]⟩,
       CfOutcome.ok) ∧
    call_cf c4B c4Z "2001:db8::1" [("corpdk.com", ["db.corpdk.com"])] 0 [] =
      (CallRes.finished [], 3) ∧
    svc_dns_update c4B "db.corpdk.com" "2001:db8::1" 0 =
      (⟨3,
        [Call.getRecords "db.corpdk.com", Call.postRecord "db.corpdk.com" "2001:db8::1" 60,
         Call.getRecords "db.corpdk.com"],
        [], []⟩,
       CfOutcome.exited "Error: Record was not created") := by
  decide

/-- C6: the claim says committed identifiers in a single zone never share
an fqdn and each had zero pre-existing address records at commit.  The
second half fails as a consequence of the mis-dispatched commit step: the
first allocation commits `rpi4-abcdefgh.corpdk.com` without writing
anything (its commit run makes zero API calls and leaves the zone store
empty), so a second allocation starting from exactly the first
allocation's final DNS state — and drawing the same random label, which
nothing now prevents — passes the uniqueness check and commits the very
same fqdn. -/
theorem c6_committed_fqdn_duplicate :
    ∃ (fqdn : String) (qs : List String) (t : Trace (List (String × String)) DoCall),
      generate storeQ storeDoB sampleZoneId "rpi4" "corpdk.com" [] ["abcdefgh"] [] [] =
        GenRes.committed "rpi4-abcdefgh" fqdn qs [] (t, DoOutcome.ok) ∧
      t.calls = [] ∧
      generate storeQ storeDoB sampleZoneId "rpi4" "corpdk.com" t.st ["abcdefgh"] t.st [] =
        GenRes.committed "rpi4-abcdefgh" fqdn qs t.st (t, DoOutcome.ok) := by
  exact ⟨"rpi4-abcdefgh.corpdk.com", ["rpi4-abcdefgh.corpdk.com"],
    ⟨[], [], [],
     ["Error: rpi4-abcdefgh.corpdk.com not part of Zone " ++ sampleZoneId]⟩,
    by decide, by decide, by decide⟩

/-- C7: the claim says that when the adapter reports an existing record
for the first N candidates and an empty result for the (N+1)-th, the
allocator performs exactly N+1 uniqueness queries and exactly one commit
write.  With N = 2 the query count is right — three names are queried —
but the commit run issues zero writes (zero API calls altogether),
because the commit step is the mis-dispatched DigitalOcean call stopped
by its zone-membership guard. -/
theorem c7_queries_but_no_commit_write :
    generate c7Q failDoB sampleZoneId "rpi4" "corpdk.com" ()
        ["aaaaaaaa", "bbbbbbbb", "cccccccc"] () [] =
      GenRes.committed "rpi4-cccccccc" "rpi4-cccccccc.corpdk.com"
        ["rpi4-aaaaaaaa.corpdk.com", "rpi4-bbbbbbbb.corpdk.com", "rpi4-cccccccc.corpdk.com"] ()
        (⟨(), [], [],
          ["Error: rpi4-cccccccc.corpdk.com not part of Zone " ++ sampleZoneId]⟩,
         DoOutcome.ok) ∧
    ((do_dns_update failDoB sampleZoneId "rpi4-cccccccc.corpdk.com" "::1" ()).1.calls.filter
        DoCall.isWrite).length = 0 := by
  decide

set_option maxRecDepth 8000 in
/-- C8 counterexample: the claim says the allocator fails fast exactly
when the composed label would exceed 63 characters or the full name would
exceed 253 characters.  With a 54-character prefix, random length 8 and a
190-character network — all within the individual caps — `validate_input`
returns no error, yet the composed fqdn is 254 characters long (the
combined check `label_length + len(network) > 253` omits the joining
dot), and `validators.domain` accepts it too, so nothing stops the
allocator before network I/O. -/
theorem c8_fqdn_254_passes_validation :
    validate_input (some net190) (some a54) 8 = [] ∧
    a54.length + 1 + 8 = 63 ∧
    net190.length = 190 ∧
    c8Fqdn.length = 254 ∧
    validators_domain c8Fqdn = true := by
  decide

/-- C9 counterexample: the claim says an `update_record` failure for a
vanished record identifier triggers a one-time fallback to the create
path instead of becoming a per-host failure.  With a backend holding one
stale record whose update call raises, `cf_dns_update` raises the wrapped
per-host `DDNSUpdateError` immediately: the trace is one query and one
attempted update — no create call is ever issued. -/
theorem c9_update_error_no_create_fallback :
    cf_dns_update c9B "db.corpdk.com" "2001:db8::2" 0 =
      (⟨1,
        [Call.getRecords "db.corpdk.com", Call.putRecord "db.corpdk.com" 1 "2001:db8::2" false],
        [], []⟩,
       CfOutcome.ddnsErr (putFailMsg "db.corpdk.com")) := by
  decide

/-! ### Helper lemmas about the ideal provider -/

theorem applyPuts_nil (ip : String) (s : List Rec) : applyPuts ip s [] = s := by
  have h : ∀ r : Rec, fixRec ip [] r = r := fun _ => rfl
  simp only [applyPuts]
  rw [List.map_congr_left fun r _ => h r]
  exact List.map_id' s

theorem fixRec_cons (ip : String) (q : Rec) (D : List Rec) (r : Rec) :
    fixRec ip (q :: D) r = fixRec ip D (fix1 ip q r) := rfl

theorem fixRec_snoc (ip : String) (D : List Rec) (q r : Rec) :
    fixRec ip (D ++ [q]) r = fix1 ip q (fixRec ip D r) := by
  simp [fixRec, List.foldl_append]

theorem applyPuts_snoc (ip : String) (s D : List Rec) (q : Rec) :
    applyPuts ip s (D ++ [q]) = (applyPuts ip s D).map (fix1 ip q) := by
  simp only [applyPuts, List.map_map]
  exact List.map_congr_left fun r _ => fixRec_snoc ip D q r

theorem fix1_id (ip : String) (q r : Rec) : (fix1 ip q r).id = r.id := by
  unfold fix1; split <;> rfl

theorem fix1_content_ip (ip : String) (q r : Rec) (h : r.content = ip) :
    (fix1 ip q r).content = ip := by
  unfold fix1; split
  · rfl
  · exact h

theorem fixRec_content_stable (ip : String) (D : List Rec) :
    ∀ r : Rec, r.content = ip → (fixRec ip D r).content = ip := by
  induction D with
  | nil => intro r h; exact h
  | cons q D ih =>
    intro r h
    rw [fixRec_cons]
    exact ih _ (fix1_content_ip ip q r h)

theorem fixRec_content_of_mem (ip : String) (D : List Rec) :
    ∀ r : Rec, (∃ q ∈ D, q.id = r.id) → (fixRec ip D r).content = ip := by
  induction D with
  | nil => intro r h; obtain ⟨q, hq, _⟩ := h; exact absurd hq (List.not_mem_nil q)
  | cons q D ih =>
    intro r h
    obtain ⟨q1, hq1, hid⟩ := h
    rw [fixRec_cons]
    rcases List.mem_cons.mp hq1 with h1 | h1
    · subst h1
      have hfix : fix1 ip q1 r = ⟨r.id, ip, q1.proxied⟩ := by
        unfold fix1; rw [if_pos hid.symm]
      rw [hfix]
      exact fixRec_content_stable ip D _ rfl
    · refine ih (fix1 ip q r) ⟨q1, h1, ?_⟩
      rw [fix1_id]
      exact hid

theorem fixRec_content_or (ip : String) (D : List Rec) :
    ∀ r : Rec, (fixRec ip D r).content = ip ∨ (fixRec ip D r).content = r.content := by
  induction D with
  | nil => intro r; exact Or.inr rfl
  | cons q D ih =>
    intro r
    rw [fixRec_cons]
    rcases ih (fix1 ip q r) with h | h
    · exact Or.inl h
    · rw [h]
      unfold fix1; split
      · exact Or.inl rfl
      · exact Or.inr rfl

/-- Running the update loop against the ideal provider from a state that
already reflects the updates for the processed prefix `pre` of the
snapshot: the loop never raises, reports `updated` whenever anything was
in the snapshot, and leaves the state reflecting the updates for every
stale snapshot record. -/
theorem cfLoop_ideal (name ip : String) :
    ∀ (pending pre : List Rec) (upd : Bool) (st : List Rec) (cs : List Call)
      (so se : List String),
      st = applyPuts ip (pre ++ pending) (pre.filter fun x => !(x.content == ip)) →
      ∃ (cs2 : List Call) (so2 : List String),
        cfLoop idealB name ip pending upd ⟨st, cs, so, se⟩ =
          (⟨applyPuts ip (pre ++ pending)
              ((pre ++ pending).filter fun x => !(x.content == ip)),
            cs ++ cs2, so ++ so2, se⟩,
           LoopRes.fin (upd || !pending.isEmpty)) := by
  intro pending
  induction pending with
  | nil =>
    intro pre upd st cs so se hst
    refine ⟨[], [], ?_⟩
    simp only [cfLoop, List.isEmpty_nil, Bool.not_true, Bool.or_false]
    rw [hst]
    simp
  | cons r rest ih =>
    intro pre upd st cs so se hst
    have hs0 : pre ++ r :: rest = (pre ++ [r]) ++ rest := by
      rw [List.append_assoc]; rfl
    by_cases h : r.content = ip
    · have hfil : (pre ++ [r]).filter (fun x => !(x.content == ip)) =
          pre.filter (fun x => !(x.content == ip)) := by
        rw [List.filter_append]
        simp [h]
      obtain ⟨cs2, so2, hrec⟩ :=
        ih (pre ++ [r]) true st cs (so ++ [unchangedLine name ip]) se
          (by rw [hst, ← hs0, hfil])
      refine ⟨cs2, [unchangedLine name ip] ++ so2, ?_⟩
      simp only [cfLoop, if_pos h]
      rw [hrec, ← hs0]
      simp [List.append_assoc]
    · have hpredr : (!(r.content == ip)) = true := by
        simp [h]
      have hfil : (pre ++ [r]).filter (fun x => !(x.content == ip)) =
          pre.filter (fun x => !(x.content == ip)) ++ [r] := by
        rw [List.filter_append]
        simp [hpredr]
      set Dpre := pre.filter (fun x => !(x.content == ip)) with hD
      -- the state after the put
      have hput : st.map (fun x => if x.id = r.id then (⟨x.id, ip, r.proxied⟩ : Rec) else x) =
          applyPuts ip (pre ++ r :: rest) (Dpre ++ [r]) := by
        rw [hst, applyPuts_snoc]
        rfl
      -- the head of the re-queried state has the target content
      have hhead : ∃ h0, (pre ++ r :: rest).head? = some h0 ∧
          (fixRec ip (Dpre ++ [r]) h0).content = ip := by
        cases pre with
        | nil =>
          refine ⟨r, rfl, ?_⟩
          exact fixRec_content_of_mem ip _ r ⟨r, by simp, rfl⟩
        | cons p0 pre1 =>
          refine ⟨p0, rfl, ?_⟩
          by_cases hc : p0.content = ip
          · exact fixRec_content_stable ip _ p0 hc
          · refine fixRec_content_of_mem ip _ p0 ⟨p0, ?_, rfl⟩
            refine List.mem_append_left _ ?_
            rw [hD]
            refine List.mem_filter.mpr ⟨List.mem_cons_self p0 pre1, ?_⟩
            simp [hc]
      obtain ⟨h0, hh0, hcont⟩ := hhead
      have hhead2 : (applyPuts ip (pre ++ r :: rest) (Dpre ++ [r])).head? =
          some (fixRec ip (Dpre ++ [r]) h0) := by
        simp only [applyPuts, List.head?_map, hh0, Option.map_some']
      obtain ⟨cs2, so2, hrec⟩ :=
        ih (pre ++ [r]) true (applyPuts ip (pre ++ r :: rest) (Dpre ++ [r]))
          (cs ++ [Call.putRecord name r.id ip r.proxied, Call.getRecords name])
          (so ++ [updatedLine name r.content ip]) se
          (by rw [← hs0, hfil, hD])
      have hBput : idealB.put st name r.id ip r.proxied =
          some (applyPuts ip (pre ++ r :: rest) (Dpre ++ [r])) := by
        rw [← hput]; rfl
      have hBget : idealB.get (applyPuts ip (pre ++ r :: rest) (Dpre ++ [r])) name =
          some (applyPuts ip (pre ++ r :: rest) (Dpre ++ [r]),
                applyPuts ip (pre ++ r :: rest) (Dpre ++ [r])) := rfl
      refine ⟨[Call.putRecord name r.id ip r.proxied, Call.getRecords name] ++ cs2,
        [updatedLine name r.content ip] ++ so2, ?_⟩
      simp only [cfLoop, if_neg h, hBput, hBget, hhead2, if_pos hcont]
      rw [hrec, ← hs0]
      simp [List.append_assoc]

/-- A full reconciliation run against the ideal provider succeeds and
leaves a nonempty record list in which every record carries the target
content. -/
theorem cf_ideal_state (name ip : String) (s0 : List Rec) :
    (cf_dns_update idealB name ip s0).2 = CfOutcome.ok ∧
    (cf_dns_update idealB name ip s0).1.st ≠ [] ∧
    ∀ r ∈ (cf_dns_update idealB name ip s0).1.st, r.content = ip := by
  cases s0 with
  | nil =>
    refine ⟨?_, ?_, ?_⟩ <;> simp [cf_dns_update, cfLoop, idealB, freshId]
  | cons r rest =>
    have hget : idealB.get (r :: rest) name = some (r :: rest, r :: rest) := rfl
    obtain ⟨cs2, so2, hrec⟩ := cfLoop_ideal name ip (r :: rest) [] false (r :: rest)
      [Call.getRecords name] [] [] (by simp [applyPuts_nil])
    simp only [List.isEmpty_cons, Bool.not_false, Bool.false_or, List.nil_append] at hrec
    refine ⟨?_, ?_, ?_⟩
    · simp only [cf_dns_update, hget, hrec]
    · simp only [cf_dns_update, hget, hrec]
      simp [applyPuts]
    · simp only [cf_dns_update, hget, hrec]
      intro x hx
      simp only [applyPuts, List.mem_map] at hx
      obtain ⟨y, hy, rfl⟩ := hx
      by_cases hc : y.content = ip
      · exact fixRec_content_stable ip _ y hc
      · refine fixRec_content_of_mem ip _ y ⟨y, ?_, rfl⟩
        exact List.mem_filter.mpr ⟨hy, by simp [hc]⟩

/-- The update loop over a snapshot whose records all already carry the
target content: it only prints `UNCHANGED` lines, issues no call and
leaves the state untouched. -/
theorem cfLoop_allip (name ip : String) :
    ∀ (pending : List Rec) (upd : Bool) (st : List Rec) (cs : List Call) (so se : List String),
      (∀ r ∈ pending, r.content = ip) →
      cfLoop idealB name ip pending upd ⟨st, cs, so, se⟩ =
        (⟨st, cs, so ++ pending.map (fun _ => unchangedLine name ip), se⟩,
         LoopRes.fin (upd || !pending.isEmpty)) := by
  intro pending
  induction pending with
  | nil => intro upd st cs so se _; simp [cfLoop]
  | cons r rest ih =>
    intro upd st cs so se hall
    have hr : r.content = ip := hall r (List.mem_cons_self r rest)
    simp only [cfLoop, if_pos hr]
    rw [ih true st cs (so ++ [unchangedLine name ip]) se
      (fun x hx => hall x (List.mem_cons_of_mem r hx))]
    simp [List.append_assoc]

/-- C5: reconciliation is idempotent.  For any host name, target value
and initial record state, running `cf_dns_update` against the ideal
provider and then running it again on the resulting state makes the
second run succeed with exactly one API call — the initial record query,
hence zero create or update writes — and a nonempty stdout consisting
solely of `UNCHANGED` lines for the host. -/
theorem c5_reconcile_idempotent (name ip : String) (s0 : List Rec) :
    (cf_dns_update idealB name ip ((cf_dns_update idealB name ip s0).1.st)).2 =
      CfOutcome.ok ∧
    (cf_dns_update idealB name ip ((cf_dns_update idealB name ip s0).1.st)).1.calls =
      [Call.getRecords name] ∧
    (cf_dns_update idealB name ip ((cf_dns_update idealB name ip s0).1.st)).1.stdout ≠ [] ∧
    ∀ l ∈ (cf_dns_update idealB name ip ((cf_dns_update idealB name ip s0).1.st)).1.stdout,
      l = unchangedLine name ip := by
  obtain ⟨-, hne, hall⟩ := cf_ideal_state name ip s0
  set s1 := (cf_dns_update idealB name ip s0).1.st with hs1
  have hget : idealB.get s1 name = some (s1, s1) := rfl
  have hemp : s1.isEmpty = false := by
    cases h : s1 with
    | nil => exact absurd h hne
    | cons a l => rfl
  have hloop := cfLoop_allip name ip s1 false s1 [Call.getRecords name] [] [] hall
  rw [hemp] at hloop
  simp only [Bool.not_false, Bool.false_or] at hloop
  refine ⟨?_, ?_, ?_, ?_⟩
  · simp only [cf_dns_update, hget, hloop]
  · simp only [cf_dns_update, hget, hloop]
  · simp only [cf_dns_update, hget, hloop, List.nil_append]
    simp [hne]
  · simp only [cf_dns_update, hget, hloop, List.nil_append]
    intro l hl
    obtain ⟨y, hy, rfl⟩ := List.mem_map.mp hl
    rfl

/-- Pattern-checking is preserved under appending a pattern-respecting
suffix. -/
theorem putsVerified_append : ∀ (xs ys : List Call),
    putsVerified xs = true → putsVerified ys = true → putsVerified (xs ++ ys) = true
  | [], _, _, h2 => h2
  | Call.getRecords _ :: rest, ys, h1, h2 => by
    simp only [putsVerified] at h1
    simpa only [List.cons_append, putsVerified] using putsVerified_append rest ys h1 h2
  | Call.postRecord _ _ _ :: rest, ys, h1, h2 => by
    simp only [putsVerified] at h1
    simpa only [List.cons_append, putsVerified] using putsVerified_append rest ys h1 h2
  | Call.putRecord _ _ _ _ :: Call.getRecords _ :: rest, ys, h1, h2 => by
    simp only [putsVerified] at h1
    simpa only [List.cons_append, putsVerified] using putsVerified_append rest ys h1 h2
  | [Call.putRecord _ _ _ _], _, h1, _ => by simp [putsVerified] at h1
  | Call.putRecord _ _ _ _ :: Call.putRecord _ _ _ _ :: _, _, h1, _ => by
    simp [putsVerified] at h1
  | Call.putRecord _ _ _ _ :: Call.postRecord _ _ _ :: _, _, h1, _ => by
    simp [putsVerified] at h1

/-- If the update loop falls through normally, its call trace keeps every
update immediately followed by a verification query. -/
theorem cfLoop_fin_putsVerified {σ : Type} (B : Backend σ) (name ip : String) :
    ∀ (rs : List Rec) (upd u : Bool) (t t2 : Trace σ Call),
      putsVerified t.calls = true →
      cfLoop B name ip rs upd t = (t2, LoopRes.fin u) →
      putsVerified t2.calls = true := by
  intro rs
  induction rs with
  | nil =>
    intro upd u t t2 hpv hrun
    simp only [cfLoop, Prod.mk.injEq] at hrun
    rw [← hrun.1]
    exact hpv
  | cons r rest ih =>
    intro upd u t t2 hpv hrun
    simp only [cfLoop] at hrun
    by_cases h : r.content = ip
    · rw [if_pos h] at hrun
      refine ih true u _ t2 ?_ hrun
      exact hpv
    · rw [if_neg h] at hrun
      cases hput : B.put t.st name r.id ip r.proxied with
      | none => simp only [hput] at hrun; simp at hrun
      | some s1 =>
        simp only [hput] at hrun
        cases hget : B.get s1 name with
        | none => simp only [hget] at hrun; simp at hrun
        | some p =>
          obtain ⟨rs2, s2⟩ := p
          simp only [hget] at hrun
          cases hh : rs2.head? with
          | none => simp only [hh] at hrun; simp at hrun
          | some r0 =>
            simp only [hh] at hrun
            by_cases hc : r0.content = ip
            · rw [if_pos hc] at hrun
              refine ih true u _ t2 ?_ hrun
              exact putsVerified_append t.calls
                [Call.putRecord name r.id ip r.proxied, Call.getRecords name] hpv rfl
            · rw [if_neg hc] at hrun
              simp at hrun

/-- A `cf_dns_update` run that returns normally has every update call
immediately followed by a fresh record query. -/
theorem cf_ok_putsVerified {σ : Type} (B : Backend σ) (name ip : String) (s : σ)
    (hok : (cf_dns_update B name ip s).2 = CfOutcome.ok) :
    putsVerified (cf_dns_update B name ip s).1.calls = true := by
  simp only [cf_dns_update] at hok ⊢
  cases hget : B.get s name with
  | none => simp only [hget] at hok; simp at hok
  | some p =>
    obtain ⟨rs, s1⟩ := p
    simp only [hget] at hok ⊢
    cases hloop : cfLoop B name ip rs false ⟨s1, [Call.getRecords name], [], []⟩ with
    | mk t res =>
      have hpv0 : putsVerified (Trace.calls ⟨s1, [Call.getRecords name], [], []⟩) = true := rfl
      simp only [hloop] at hok ⊢
      cases res with
      | err m => simp at hok
      | idx => simp at hok
      | fin u =>
        have hpv : putsVerified t.calls = true :=
          cfLoop_fin_putsVerified B name ip rs false u _ t hpv0 hloop
        cases u with
        | true => exact hpv
        | false =>
          cases hpost : B.post t.st name ip with
          | none => simp only [hpost] at hok; simp at hok
          | some s2 =>
            simp only [hpost] at hok ⊢
            cases hget2 : B.get s2 name with
            | none => simp only [hget2] at hok; simp at hok
            | some p2 =>
              obtain ⟨rs2, s3⟩ := p2
              simp only [hget2] at hok ⊢
              cases hh : rs2.head? with
              | none => simp only [hh] at hok; simp at hok
              | some r0 =>
                simp only [hh] at hok ⊢
                by_cases hc : r0.content ≠ ip
                · rw [if_pos hc]
                  exact putsVerified_append _ _ hpv rfl
                · rw [if_neg hc]
                  exact putsVerified_append _ _ hpv rfl

/-- A service `do_dns_update` run that returns normally has every update
call immediately followed by a fresh record query. -/
theorem svc_ok_putsVerified {σ : Type} (B : Backend σ) (name ip : String) (s : σ)
    (hok : (svc_dns_update B name ip s).2 = CfOutcome.ok) :
    putsVerified (svc_dns_update B name ip s).1.calls = true := by
  simp only [svc_dns_update] at hok ⊢
  cases hget : B.get s name with
  | none => simp only [hget] at hok; simp at hok
  | some p =>
    obtain ⟨rs, s1⟩ := p
    simp only [hget] at hok ⊢
    cases hloop : cfLoop B name ip rs false ⟨s1, [Call.getRecords name], [], []⟩ with
    | mk t res =>
      have hpv0 : putsVerified (Trace.calls ⟨s1, [Call.getRecords name], [], []⟩) = true := rfl
      simp only [hloop] at hok ⊢
      cases res with
      | err m => simp at hok
      | idx => simp at hok
      | fin u =>
        have hpv : putsVerified t.calls = true :=
          cfLoop_fin_putsVerified B name ip rs false u _ t hpv0 hloop
        cases u with
        | true => exact hpv
        | false =>
          cases hpost : B.post t.st name ip with
          | none => simp only [hpost] at hok; simp at hok
          | some s2 =>
            simp only [hpost] at hok ⊢
            cases hget2 : B.get s2 name with
            | none => simp only [hget2] at hok; simp at hok
            | some p2 =>
              obtain ⟨rs2, s3⟩ := p2
              simp only [hget2] at hok ⊢
              cases hh : rs2.head? with
              | none => simp only [hh] at hok; simp at hok
              | some r0 =>
                simp only [hh] at hok ⊢
                by_cases hc : r0.content ≠ ip
                · rw [if_pos hc] at hok; simp at hok
                · rw [if_neg hc]
                  exact putsVerified_append _ _ hpv rfl

/-- C3 as amended: on the Cloudflare code paths (tools agent and service
variant) a run that returns normally has every `update_record` call
immediately followed by a fresh record query before it counts as a
success; on the DigitalOcean path an update of a stale record is counted
as a success purely from the update call's own response — the trace is
one list call and one update call, with no re-query. -/
theorem c3_update_verification_per_backend :
    (∀ (σ : Type) (B : Backend σ) (name ip : String) (s : σ),
       (cf_dns_update B name ip s).2 = CfOutcome.ok →
       putsVerified (cf_dns_update B name ip s).1.calls = true) ∧
    (∀ (σ : Type) (B : Backend σ) (name ip : String) (s : σ),
       (svc_dns_update B name ip s).2 = CfOutcome.ok →
       putsVerified (svc_dns_update B name ip s).1.calls = true) ∧
    (∀ (τ : Type) (D : DoBackend τ) (zone name ip : String) (s s1 s2 : τ) (r : DoRec),
       strContains name zone = true →
       D.listRecords s zone name = some (some [r], s1) →
       ¬ r.data = ip →
       D.updateRecord s1 zone r.id (strRemoveSuffix name ("." ++ zone)) ip = some (true, s2) →
       do_dns_update D zone name ip s =
         (⟨s2,
           [DoCall.listRecords zone name,
            DoCall.updateRecord zone r.id (strRemoveSuffix name ("." ++ zone)) ip],
           [updatedLine (strRemoveSuffix name ("." ++ zone)) r.data ip], []⟩,
          DoOutcome.ok)) := by
  refine ⟨fun σ B name ip s hok => cf_ok_putsVerified B name ip s hok,
    fun σ B name ip s hok => svc_ok_putsVerified B name ip s hok,
    fun τ D zone name ip s s1 s2 r hzone hlist hne hupd => ?_⟩
  simp [do_dns_update, doLoop, hzone, hlist, hupd, hne]

/-- Witness for `c3_update_verification_per_backend`: the Cloudflare part
at the ideal provider with one stale record, and the DigitalOcean part at
the scripted backend with one stale record. -/
theorem c3_update_verification_witness :
    (cf_dns_update idealB "db.corpdk.com" "2001:db8::2" [⟨5, "2001:db8::1", true⟩]).2 =
      CfOutcome.ok ∧
    putsVerified (cf_dns_update idealB "db.corpdk.com" "2001:db8::2"
      [⟨5, "2001:db8::1", true⟩]).1.calls = true ∧
    do_dns_update c3DoB "corpdk.com" "db.corpdk.com" "2001:db8::2" 0 =
      (⟨2,
        [DoCall.listRecords "corpdk.com" "db.corpdk.com",
         DoCall.updateRecord "corpdk.com" 7
           (strRemoveSuffix "db.corpdk.com" ("." ++ "corpdk.com")) "2001:db8::2"],
        [updatedLine (strRemoveSuffix "db.corpdk.com" ("." ++ "corpdk.com"))
          "2001:db8::1" "2001:db8::2"], []⟩,
       DoOutcome.ok) := by
  refine ⟨by decide, ?_, ?_⟩
  · exact c3_update_verification_per_backend.1 (List Rec) idealB "db.corpdk.com"
      "2001:db8::2" [⟨5, "2001:db8::1", true⟩] (by decide)
  · exact c3_update_verification_per_backend.2.2 Nat c3DoB "corpdk.com" "db.corpdk.com"
      "2001:db8::2" 0 1 2 ⟨7, "2001:db8::1"⟩ (by decide) (by decide) (by decide) (by decide)

/-- C4 as amended: when the initial record list is empty, the create call
is accepted and the confirming re-query shows a value different from the
target, the tools agent prints `Error: Record was not created` to stderr
and returns normally — no per-host failure is raised or collected — while
the service variant terminates the whole process via `exit`. -/
theorem c4_create_mismatch_behaviour :
    ∀ (σ : Type) (B : Backend σ) (name ip : String) (s s1 s2 s3 : σ) (r0 : Rec)
      (rs2 : List Rec),
      B.get s name = some ([], s1) →
      B.post s1 name ip = some s2 →
      B.get s2 name = some (r0 :: rs2, s3) →
      ¬ r0.content = ip →
      cf_dns_update B name ip s =
        (⟨s3, [Call.getRecords name, Call.postRecord name ip 60, Call.getRecords name],
          [], ["Error: Record was not created"]⟩, CfOutcome.ok) ∧
      svc_dns_update B name ip s =
        (⟨s3, [Call.getRecords name, Call.postRecord name ip 60, Call.getRecords name],
          [], []⟩, CfOutcome.exited "Error: Record was not created") := by
  intro σ B name ip s s1 s2 s3 r0 rs2 h1 h2 h3 h4
  constructor
  · simp [cf_dns_update, cfLoop, h1, h2, h3, h4]
  · simp [svc_dns_update, cfLoop, h1, h2, h3, h4]

/-- Witness for `c4_create_mismatch_behaviour` at the scripted backend
`c4B`. -/
theorem c4_create_mismatch_witness :
    c4B.get 0 "db.corpdk.com" = some ([], 1) ∧
    cf_dns_update c4B "db.corpdk.com" "2001:db8::1" 0 =
      (⟨3, [Call.getRecords "db.corpdk.com", Call.postRecord "db.corpdk.com" "2001:db8::1" 60,
            Call.getRecords "db.corpdk.com"],
        [], ["Error: Record was not created"]⟩, CfOutcome.ok) := by
  refine ⟨by decide, ?_⟩
  exact (c4_create_mismatch_behaviour Nat c4B "db.corpdk.com" "2001:db8::1" 0 1 2 3
    ⟨1, "2001:db8::bad", false⟩ [] (by decide) (by decide) (by decide) (by decide)).1

/-- C9 as amended: an `update_record` call that fails — the not-found
case included, since the client surfaces it as the same API error — makes
`cf_dns_update` raise the wrapped per-host `DDNSUpdateError` immediately;
no fallback to the create path exists, and the trace ends at the failed
update call. -/
theorem c9_update_error_wrapped :
    ∀ (σ : Type) (B : Backend σ) (name ip : String) (s s1 : σ) (r : Rec) (rest : List Rec),
      B.get s name = some (r :: rest, s1) →
      ¬ r.content = ip →
      B.put s1 name r.id ip r.proxied = none →
      cf_dns_update B name ip s =
        (⟨s1, [Call.getRecords name, Call.putRecord name r.id ip r.proxied], [], []⟩,
         CfOutcome.ddnsErr (putFailMsg name)) := by
  intro σ B name ip s s1 r rest h1 h2 h3
  simp [cf_dns_update, cfLoop, h1, h2, h3]

/-- Witness for `c9_update_error_wrapped` at the scripted backend
`c9B`. -/
theorem c9_update_error_witness :
    c9B.put 1 "db.corpdk.com" 1 "2001:db8::2" false = none ∧
    cf_dns_update c9B "db.corpdk.com" "2001:db8::2" 0 =
      (⟨1, [Call.getRecords "db.corpdk.com",
            Call.putRecord "db.corpdk.com" 1 "2001:db8::2" false], [], []⟩,
       CfOutcome.ddnsErr (putFailMsg "db.corpdk.com")) := by
  refine ⟨by decide, ?_⟩
  exact c9_update_error_wrapped Nat c9B "db.corpdk.com" "2001:db8::2" 0 1
    ⟨1, "2001:db8::1", false⟩ [] (by decide) (by decide) (by decide)

/-- C10: a DigitalOcean host name that does not contain the zone string
as a substring makes `do_dns_update` print an error to stderr and return
normally with zero API calls; the batch loop (`call_do`) therefore
collects no failure for it and `__call__` exits 0, treating the mis-zoned
host as a success.  The containment test is `dns_name.find(zone) == -1`,
which accepts the zone anywhere in the name: `corpdk.com.evil.org`
contains `corpdk.com` without having it as a suffix, and such a host
passes the guard and proceeds to the record query. -/
theorem c10_miszoned_host_ignored :
    (∀ (τ : Type) (D : DoBackend τ) (zone name ip : String) (s : τ),
       strContains name zone = false →
       do_dns_update D zone name ip s =
         (⟨s, [], [], ["Error: " ++ name ++ " not part of Zone " ++ zone]⟩, DoOutcome.ok)) ∧
    call_do failDoB c2Z "2001:db8::1" [("corpdk.com", ["db.example.org"])] () [] =
      (CallRes.finished [], ()) ∧
    toolsExitCode none (some (CallRes.finished [])) = 0 ∧
    strContains "corpdk.com.evil.org" "corpdk.com" = true ∧
    List.isSuffixOf "corpdk.com".data "corpdk.com.evil.org".data = false ∧
    (do_dns_update storeDoB "corpdk.com" "corpdk.com.evil.org" "2001:db8::1" []).1.calls.head? =
      some (DoCall.listRecords "corpdk.com" "corpdk.com.evil.org") := by
  refine ⟨?_, by decide, by decide, by decide, by decide, by decide⟩
  intro τ D zone name ip s h
  simp [do_dns_update, h]

/-- Witness for `c10_miszoned_host_ignored`: host `db.example.org` under
zone `corpdk.com`. -/
theorem c10_miszoned_host_witness :
    strContains "db.example.org" "corpdk.com" = false ∧
    do_dns_update failDoB "corpdk.com" "db.example.org" "2001:db8::1" () =
      (⟨(), [], [],
        ["Error: " ++ "db.example.org" ++ " not part of Zone " ++ "corpdk.com"]⟩,
       DoOutcome.ok) := by
  refine ⟨by decide, ?_⟩
  exact c10_miszoned_host_ignored.1 Unit failDoB "corpdk.com" "db.example.org"
    "2001:db8::1" () (by decide)

/-- C8 as amended: `validate_input` passes exactly the configurations
whose prefix and network are syntactically valid per the modelled
validators and whose composed label is at most 63 characters with
`label_length + len(network)` at most 253; because that combined check
omits the dot joining label and network, a passing configuration
guarantees only that the composed fully-qualified name is at most 254
characters, and exceeding either checked bound makes validation fail
(fast, before any network call). -/
theorem c8_validate_input_bounds :
    (∀ (n p rid : String) (rand : Nat),
       rid.length = rand →
       validate_input (some n) (some p) rand = [] →
       p.length + 1 + rand ≤ 63 ∧ (p ++ "-" ++ rid ++ "." ++ n).length ≤ 254 ∧
       validators_domain n = true ∧ validators_hostname p = true) ∧
    (∀ (n p : String) (rand : Nat),
       63 < p.length + 1 + rand ∨ 253 < p.length + 1 + rand + n.length →
       validate_input (some n) (some p) rand ≠ []) := by
  constructor
  · intro n p rid rand hr hv
    simp only [validate_input] at hv
    rw [List.append_eq_nil] at hv
    obtain ⟨hAB, hC⟩ := hv
    rw [List.append_eq_nil] at hAB
    obtain ⟨hA, hB⟩ := hAB
    simp only [validate_network] at hA
    rw [List.append_eq_nil] at hA
    obtain ⟨hA1, hA2⟩ := hA
    have hdom : validators_domain n = true := by
      cases hd : validators_domain n with
      | true => rfl
      | false => rw [hd] at hA1; simp at hA1
    simp only [ validate_prefix] at hB
    rw [List.append_eq_nil] at hB
    obtain ⟨hB1, hB2⟩ := hB
    have hhost : validators_hostname p = true := by
      cases hh : validators_hostname p with
      | true => rfl
      | false => rw [if_pos (Or.inl hh)] at hB1; simp at hB1
    have h63 : p.length + 1 + rand ≤ 63 := by
      by_cases h : 63 < p.length + 1 + rand
      · rw [if_pos h] at hB2; simp at hB2
      · omega
    have hn : n ≠ "" := by
      intro he; rw [he] at hdom; exact absurd hdom (by decide)
    have hp : p ≠ "" := by
      intro he; rw [he] at hhost; exact absurd hhost (by decide)
    rw [if_pos ⟨hn, hp⟩] at hC
    have h253 : ¬ 253 < p.length + 1 + rand + n.length := by
      intro h; rw [if_pos h] at hC; simp at hC
    refine ⟨h63, ?_, hdom, hhost⟩
    have hd1 : ("-" : String).length = 1 := rfl
    have hd2 : ("." : String).length = 1 := rfl
    have hlen : (p ++ "-" ++ rid ++ "." ++ n).length =
        p.length + 1 + rid.length + 1 + n.length := by
      simp only [String.length_append, hd1, hd2]
    omega
  · intro n p rand h hv
    simp only [validate_input] at hv
    rw [List.append_eq_nil] at hv
    obtain ⟨hAB, hC⟩ := hv
    rw [List.append_eq_nil] at hAB
    obtain ⟨hA, hB⟩ := hAB
    simp only [ validate_prefix] at hB
    rw [List.append_eq_nil] at hB
    obtain ⟨hB1, hB2⟩ := hB
    rcases h with h | h
    · rw [if_pos h] at hB2; simp at hB2
    · simp only [validate_network] at hA
      rw [List.append_eq_nil] at hA
      obtain ⟨hA1, hA2⟩ := hA
      have hdom : validators_domain n = true := by
        cases hd : validators_domain n with
        | true => rfl
        | false => rw [hd] at hA1; simp at hA1
      have hhost : validators_hostname p = true := by
        cases hh : validators_hostname p with
        | true => rfl
        | false => rw [if_pos (Or.inl hh)] at hB1; simp at hB1
      have hn : n ≠ "" := by
        intro he; rw [he] at hdom; exact absurd hdom (by decide)
      have hp : p ≠ "" := by
        intro he; rw [he] at hhost; exact absurd hhost (by decide)
      rw [if_pos ⟨hn, hp⟩, if_pos h] at hC
      simp at hC

/-- Witness for `c8_validate_input_bounds`: a passing configuration and a
failing oversized label. -/
theorem c8_validate_input_witness :
    validate_input (some "corpdk.com") (some "rpi4") 8 = [] ∧
    ("rpi4".length + 1 + 8 ≤ 63 ∧
      ("rpi4" ++ "-" ++ "abcdefgh" ++ "." ++ "corpdk.com").length ≤ 254 ∧
      validators_domain "corpdk.com" = true ∧ validators_hostname "rpi4" = true) ∧
    validate_input (some "corpdk.com") (some "rpi4") 100 ≠ [] := by
  refine ⟨by decide, ?_, ?_⟩
  · exact c8_validate_input_bounds.1 "corpdk.com" "rpi4" "abcdefgh" 8 (by decide) (by decide)
  · exact c8_validate_input_bounds.2 "corpdk.com" "rpi4" 100 (Or.inl (by decide))

end InfraSetup
